import Mathlib

/-!
# Device attach/detach and endpoint types of the kata runtime

A shallow embedding of

* `virtcontainers/endpoint.go` (`EndpointType.Set`, `EndpointType.String`,
  `saveTapIf`, `loadTapIf`, `saveNetIfPair`, `loadNetIfPair`),
* `virtcontainers/device/drivers/vhost_user_blk.go` (`Attach`, `Detach`,
  `DeviceType`, `GetDeviceInfo`, `Save`, `Load`),
* `virtcontainers/persist/api/network.go` (the persisted interface structs),

with pointer receivers turned into explicit state passing: a method that
mutates its receiver returns the new value of the receiver next to its Go
results.
-/

namespace Kata

/-! ## Go values shared by the packages -/

/-- Go `error` value. The errors of this code are made by `fmt.Errorf`, so an
error is identified by its message; a nil error is `none : Option Error`. -/
structure Error where
  msg : String
deriving DecidableEq, Repr

/-! ## virtcontainers/endpoint.go -/

/-- Go `type EndpointType string`: every string is a value of the type. -/
abbrev EndpointType := String

/-- PhysicalEndpointType is the physical network interface. -/
def PhysicalEndpointType : EndpointType := "physical"

/-- VethEndpointType is the virtual network interface. -/
def VethEndpointType : EndpointType := "virtual"

/-- VhostUserEndpointType is the vhostuser network interface. -/
def VhostUserEndpointType : EndpointType := "vhost-user"

/-- BridgedMacvlanEndpointType is macvlan network interface. -/
def BridgedMacvlanEndpointType : EndpointType := "macvlan"

/-- MacvtapEndpointType is macvtap network interface. -/
def MacvtapEndpointType : EndpointType := "macvtap"

/-- TapEndpointType is tap network interface. -/
def TapEndpointType : EndpointType := "tap"

/-- IPVlanEndpointType is ipvlan network interface. -/
def IPVlanEndpointType : EndpointType := "ipvlan"

/-- The seven constants of the `const` block, in declaration order. -/
def endpointTypes : List EndpointType :=
  [PhysicalEndpointType, VethEndpointType, VhostUserEndpointType,
   BridgedMacvlanEndpointType, MacvtapEndpointType, TapEndpointType,
   IPVlanEndpointType]

/-- The seven string literals of the `case` labels of `Set`, in order. -/
def endpointKeywords : List String :=
  ["physical", "virtual", "vhost-user", "macvlan", "macvtap", "tap", "ipvlan"]

/-- `func (endpointType *EndpointType) Set(value string) error`.
The first component is the returned error, the second the value of
`*endpointType` when the method returns. -/
def EndpointType.Set (endpointType : EndpointType) (value : String) :
    Option Error × EndpointType :=
  if value = "physical" then (none, PhysicalEndpointType)
  else if value = "virtual" then (none, VethEndpointType)
  else if value = "vhost-user" then (none, VhostUserEndpointType)
  else if value = "macvlan" then (none, BridgedMacvlanEndpointType)
  else if value = "macvtap" then (none, MacvtapEndpointType)
  else if value = "tap" then (none, TapEndpointType)
  else if value = "ipvlan" then (none, IPVlanEndpointType)
  else (some ⟨"Unknown endpoint type " ++ value⟩, endpointType)

/-- `func (endpointType *EndpointType) String() string`. -/
def EndpointType.String (endpointType : EndpointType) : String :=
  if endpointType = PhysicalEndpointType then PhysicalEndpointType
  else if endpointType = VethEndpointType then VethEndpointType
  else if endpointType = VhostUserEndpointType then VhostUserEndpointType
  else if endpointType = BridgedMacvlanEndpointType then BridgedMacvlanEndpointType
  else if endpointType = MacvtapEndpointType then MacvtapEndpointType
  else if endpointType = TapEndpointType then TapEndpointType
  else if endpointType = IPVlanEndpointType then IPVlanEndpointType
  else ""

/-! ## Declarations imported from packages that are not among the sources -/

/-- Go `type DeviceType string` of package `config`. -/
abbrev DeviceType := String

/-- Modelled from the spec: `config.DeviceInfo`, whose declaration is not among
the sources. The spec gives it the host path, the requested type and the
major/minor numbers; `Attach` also reads its `ID`. -/
structure DeviceInfo where
  ID : String
  HostPath : String
  DevType : String
  Major : Int
  Minor : Int
deriving DecidableEq, Repr

/-- Modelled from the spec: `config.VhostUserDeviceAttrs`, whose declaration is
not among the sources; these are the three fields `Attach`, `Save` and `Load`
name. -/
structure VhostUserDeviceAttrs where
  DevID : String
  SocketPath : String
  «Type» : DeviceType
deriving DecidableEq, Repr

/-- Modelled from the spec: `drivers.GenericDevice`, whose declaration is not
among the sources: identity, device info and the attach count (a Go `uint`,
to which the spec gives no upper limit, hence a natural number).
`DeviceInfo` is a pointer in Go; `NewVhostUserBlkDevice` dereferences it, so a
constructed device never holds nil there. -/
structure GenericDevice where
  ID : String
  DeviceInfo : Kata.DeviceInfo
  AttachCount : Nat
deriving DecidableEq, Repr

/-- Modelled from the spec: `GenericDevice.bumpAttachCount`, the attach counter
of the spec (section 4.1), whose code is not among the sources. Results:
the device after the call, `skip`, `err`.
On increment: a count that is already at least 1 is incremented anyway with
`skip = true`; a count of 0 becomes 1 with `skip = false`.
On decrement: when the count would go below 0 it fails with the invalid-state
error "more detaches than attaches" and the count stays; when the count after
the decrement is still at least 1, `skip = true`; when it reaches 0,
`skip = false`. The spec leaves `skip` open when the call fails; both callers
discard it there. -/
def GenericDevice.bumpAttachCount (device : GenericDevice) (attach : Bool) :
    GenericDevice × Bool × Option Error :=
  if attach then
    if 1 ≤ device.AttachCount then
      ({ device with AttachCount := device.AttachCount + 1 }, true, none)
    else
      ({ device with AttachCount := 1 }, false, none)
  else
    if device.AttachCount = 0 then
      (device, true, some ⟨"InvalidState: more detaches than attaches"⟩)
    else if 1 ≤ device.AttachCount - 1 then
      ({ device with AttachCount := device.AttachCount - 1 }, true, none)
    else
      ({ device with AttachCount := device.AttachCount - 1 }, false, none)

/-- Names that `vhost_user_blk.go` takes from packages that are not among the
sources and whose values the spec does not give: `utils.MakeNameID`, the
package constant `maxDevIDSize` and the device type tag `config.VhostUserBlk`.
They are parameters of the model. -/
structure Imports where
  MakeNameID : String → String → Nat → String
  maxDevIDSize : Nat
  VhostUserBlk : DeviceType

/-! ## virtcontainers/device/drivers/vhost_user_blk.go -/

/-- VhostUserBlkDevice is a block vhost-user based device.
`VhostUserDeviceAttrs` is a pointer: `none` is nil. -/
structure VhostUserBlkDevice where
  GenericDevice : Kata.GenericDevice
  VhostUserDeviceAttrs : Option Kata.VhostUserDeviceAttrs
deriving DecidableEq, Repr

/-- NewVhostUserBlkDevice creates a new vhost-user block device based on
DeviceInfo. -/
def NewVhostUserBlkDevice (devInfo : DeviceInfo) : VhostUserBlkDevice :=
  { GenericDevice := { ID := devInfo.ID, DeviceInfo := devInfo, AttachCount := 0 }
    VhostUserDeviceAttrs := none }

/-- Modelled from the spec: the interface `api.DeviceReceiver`, whose
declaration is not among the sources (spec section 3):
`HotplugAddDevice(device, type) error`,
`GetAndSetSandboxBlockIndex() (int, error)`, `DecrementSandboxBlockIndex()`.
The receiver is an external collaborator with a state of its own, `σ`; each
method returns its Go results and the receiver state after the call. The
device calls into the receiver, never the reverse, so `HotplugAddDevice` reads
the device it is handed and does not change it. -/
structure DeviceReceiver (σ : Type) where
  HotplugAddDevice : VhostUserBlkDevice → DeviceType → σ → Option Error × σ
  GetAndSetSandboxBlockIndex : σ → (Int × Option Error) × σ
  DecrementSandboxBlockIndex : σ → σ

/-- One step of the execution of `Attach` or `Detach` that a caller or the
receiver can observe: the three receiver methods and the counter operation. -/
inductive Event where
  | GetAndSetSandboxBlockIndex
  | DecrementSandboxBlockIndex
  | HotplugAddDevice (device : VhostUserBlkDevice) (devType : DeviceType)
  | bumpAttachCount (attach : Bool)
deriving DecidableEq, Repr

/-- Whether the event is a call of `HotplugAddDevice`. -/
def Event.isHotplugAddDevice : Event → Bool
  | .HotplugAddDevice _ _ => true
  | _ => false

/-- Whether the event is a call on the receiver. -/
def Event.isReceiverCall : Event → Bool
  | .bumpAttachCount _ => false
  | _ => true

/-- What a method of the device leaves behind: the returned error, the device
and the receiver state when it returns, and the events in execution order. -/
structure Outcome (σ : Type) where
  err : Option Error
  device : VhostUserBlkDevice
  receiver : σ
  trace : List Event

/-- The deferred function of `Attach` (lines 54-59), run at every return that
follows the `defer` statement, with the named result `err` as it is set by
that return: `if err != nil { devReceiver.DecrementSandboxBlockIndex();
device.bumpAttachCount(false) }`. It does not assign `err`. -/
def Attach.deferred {σ : Type} (devReceiver : DeviceReceiver σ) (o : Outcome σ) :
    Outcome σ :=
  match o.err with
  | some _ =>
    let receiver := devReceiver.DecrementSandboxBlockIndex o.receiver
    let g := (o.device.GenericDevice.bumpAttachCount false).1
    { err := o.err
      device := { o.device with GenericDevice := g }
      receiver := receiver
      trace := o.trace ++ [Event.DecrementSandboxBlockIndex, Event.bumpAttachCount false] }
  | none => o

/-- The descriptor `Attach` builds (lines 65-69):
`vAttrs := &config.VhostUserDeviceAttrs{DevID: utils.MakeNameID("blk",
device.DeviceInfo.ID, maxDevIDSize), SocketPath: device.DeviceInfo.HostPath}`;
the `Type` field is commented out in the source and keeps its zero value. -/
def Attach.vAttrs (I : Imports) (device : VhostUserBlkDevice) : VhostUserDeviceAttrs :=
  { DevID := I.MakeNameID "blk" device.GenericDevice.DeviceInfo.ID I.maxDevIDSize
    SocketPath := device.GenericDevice.DeviceInfo.HostPath
    «Type» := "" }

/-- Attach is standard interface of api.Device, it is used to add device to
some DeviceReceiver:
`func (device *VhostUserBlkDevice) Attach(devReceiver api.DeviceReceiver) (err error)`.
The logging call has no effect on the device or the receiver and is left out. -/
def VhostUserBlkDevice.Attach {σ : Type} (I : Imports) (device : VhostUserBlkDevice)
    (devReceiver : DeviceReceiver σ) (receiver : σ) : Outcome σ :=
  -- skip, err := device.bumpAttachCount(true)
  let b := device.GenericDevice.bumpAttachCount true
  let device := { device with GenericDevice := b.1 }
  let trace := [Event.bumpAttachCount true]
  match b.2.2 with
  | some e => { err := some e, device := device, receiver := receiver, trace := trace }
  | none =>
  if b.2.1 then
    { err := none, device := device, receiver := receiver, trace := trace }
  else
  -- _, err = devReceiver.GetAndSetSandboxBlockIndex()
  let r := devReceiver.GetAndSetSandboxBlockIndex receiver
  let receiver := r.2
  let trace := trace ++ [Event.GetAndSetSandboxBlockIndex]
  -- defer func() { ... }()
  match r.1.2 with
  | some e =>
    Attach.deferred devReceiver
      { err := some e, device := device, receiver := receiver, trace := trace }
  | none =>
  let vAttrs := Attach.vAttrs I device
  -- device.VhostUserDeviceAttrs = vAttrs
  let device := { device with VhostUserDeviceAttrs := some vAttrs }
  -- if err = devReceiver.HotplugAddDevice(device, config.VhostUserBlk); err != nil
  let h := devReceiver.HotplugAddDevice device I.VhostUserBlk receiver
  let receiver := h.2
  let trace := trace ++ [Event.HotplugAddDevice device I.VhostUserBlk]
  match h.1 with
  | some e =>
    Attach.deferred devReceiver
      { err := some e, device := device, receiver := receiver, trace := trace }
  | none =>
    Attach.deferred devReceiver
      { err := none, device := device, receiver := receiver, trace := trace }

/-- Detach is standard interface of api.Device, it is used to remove device
from some DeviceReceiver: `_, err := device.bumpAttachCount(false); return err`. -/
def VhostUserBlkDevice.Detach {σ : Type} (device : VhostUserBlkDevice)
    (_devReceiver : DeviceReceiver σ) (receiver : σ) : Outcome σ :=
  let b := device.GenericDevice.bumpAttachCount false
  { err := b.2.2
    device := { device with GenericDevice := b.1 }
    receiver := receiver
    trace := [Event.bumpAttachCount false] }

/-- GetDeviceInfo returns device information used for creating. -/
def VhostUserBlkDevice.GetDeviceInfo (device : VhostUserBlkDevice) :
    Option Kata.VhostUserDeviceAttrs :=
  device.VhostUserDeviceAttrs

/-- The device as a first `Attach` hands it to `HotplugAddDevice` (line 74):
the attach count already incremented (line 41) and the descriptor already
stored in it (line 73). -/
def Attach.handed (I : Imports) (device : VhostUserBlkDevice) : VhostUserBlkDevice :=
  { GenericDevice := (device.GenericDevice.bumpAttachCount true).1
    VhostUserDeviceAttrs := some (Attach.vAttrs I device) }

/-! ## Sequences of calls -/

/-- A call on the device. -/
inductive Call where
  | Attach
  | Detach
deriving DecidableEq, Repr

/-- Run one call. -/
def Call.run {σ : Type} (I : Imports) (devReceiver : DeviceReceiver σ) :
    Call → VhostUserBlkDevice → σ → Outcome σ
  | .Attach, device, receiver => device.Attach I devReceiver receiver
  | .Detach, device, receiver => device.Detach devReceiver receiver

/-- One call of a sequence: the call, the device it found and what it left. -/
structure Step (σ : Type) where
  call : Call
  before : VhostUserBlkDevice
  outcome : Outcome σ

/-- Run the calls in order on one device against one receiver, each call
starting from the device and the receiver state the previous one left. -/
def runCalls {σ : Type} (I : Imports) (devReceiver : DeviceReceiver σ) :
    List Call → VhostUserBlkDevice → σ → List (Step σ)
  | [], _, _ => []
  | c :: cs, device, receiver =>
    let o := c.run I devReceiver device receiver
    { call := c, before := device, outcome := o } ::
      runCalls I devReceiver cs o.device o.receiver

/-- The device after the calls of the log, `device` being the one they started
from. -/
def deviceAfter {σ : Type} (device : VhostUserBlkDevice) (log : List (Step σ)) :
    VhostUserBlkDevice :=
  match log.getLast? with
  | some st => st.outcome.device
  | none => device

/-- Number of calls `c` in the log that returned no error. -/
def succeeded {σ : Type} (c : Call) (log : List (Step σ)) : Nat :=
  (log.filter fun st => decide (st.call = c) && st.outcome.err.isNone).length

/-- Whether the call made a `HotplugAddDevice` call on the receiver. -/
def Step.hotplugged {σ : Type} (st : Step σ) : Bool :=
  st.outcome.trace.any Event.isHotplugAddDevice

/-! ## Persisted device state and `Save`/`Load` of vhost_user_blk.go -/

namespace persistapi

/-- Modelled from the spec: `persistapi.VhostUserDeviceAttrs`, whose
declaration is not among the sources; these are the three fields `Save` and
`Load` of the vhost-user block device name, all strings. -/
structure VhostUserDeviceAttrs where
  DevID : String
  SocketPath : String
  «Type» : String
deriving DecidableEq, Repr

/-- Modelled from the spec: `persistapi.DeviceState`, whose declaration is not
among the sources: a flat record with the `Type` discriminator, the identity
and device info of the device, and the variant substructure `VhostUserDev`
(a pointer, `none` is nil). -/
structure DeviceState where
  ID : String
  «Type» : String
  HostPath : String
  DevType : String
  Major : Int
  Minor : Int
  VhostUserDev : Option Kata.persistapi.VhostUserDeviceAttrs
deriving DecidableEq, Repr

end persistapi

/-- Modelled from the spec: `GenericDevice.Save`, whose code is not among the
sources. The snapshot of a generic device sets the discriminator to the live
type, here the tag `deviceGeneric` of the generic device (its value is in
neither the sources nor the spec, so it is an argument), records the identity
and the device info, and populates no variant substructure. -/
def GenericDevice.Save (device : GenericDevice) (deviceGeneric : DeviceType) :
    persistapi.DeviceState :=
  { ID := device.ID
    «Type» := deviceGeneric
    HostPath := device.DeviceInfo.HostPath
    DevType := device.DeviceInfo.DevType
    Major := device.DeviceInfo.Major
    Minor := device.DeviceInfo.Minor
    VhostUserDev := none }

/-- Modelled from the spec: `GenericDevice.Load`, whose code is not among the
sources. It restores the identity and the device info from the snapshot and
does not touch the attach counter, which stays at the zero state of the new
object it is called on. -/
def GenericDevice.Load (device : GenericDevice) (ds : persistapi.DeviceState) :
    GenericDevice :=
  { device with
    ID := ds.ID
    DeviceInfo :=
      { ID := ds.ID, HostPath := ds.HostPath, DevType := ds.DevType,
        Major := ds.Major, Minor := ds.Minor } }

/-- The Go zero value `GenericDevice{}`. -/
def GenericDevice.zero : GenericDevice :=
  { ID := ""
    DeviceInfo := { ID := "", HostPath := "", DevType := "", Major := 0, Minor := 0 }
    AttachCount := 0 }

/-- DeviceType is standard interface of api.Device, it returns device type. -/
def VhostUserBlkDevice.DeviceType (I : Imports) (_device : VhostUserBlkDevice) :
    DeviceType :=
  I.VhostUserBlk

/-- Save converts Device to DeviceState (lines 99-112). -/
def VhostUserBlkDevice.Save (I : Imports) (deviceGeneric : Kata.DeviceType)
    (device : VhostUserBlkDevice) : persistapi.DeviceState :=
  -- ds := device.GenericDevice.Save()
  let ds := device.GenericDevice.Save deviceGeneric
  -- ds.Type = string(device.DeviceType())
  let ds := { ds with «Type» := device.DeviceType I }
  match device.VhostUserDeviceAttrs with
  | some vAttr =>
    { ds with
      VhostUserDev :=
        some { DevID := vAttr.DevID, SocketPath := vAttr.SocketPath, «Type» := vAttr.«Type» } }
  | none => ds

/-- Load loads DeviceState and converts it to specific device (lines 115-129).
The method returns nothing; the result is the device when it returns. -/
def VhostUserBlkDevice.Load (device : VhostUserBlkDevice) (ds : persistapi.DeviceState) :
    VhostUserBlkDevice :=
  -- device.GenericDevice = &GenericDevice{}; device.GenericDevice.Load(ds)
  let device := { device with GenericDevice := GenericDevice.zero.Load ds }
  match ds.VhostUserDev with
  | none => device
  | some dev =>
    { device with
      VhostUserDeviceAttrs :=
        some { DevID := dev.DevID, SocketPath := dev.SocketPath, «Type» := dev.«Type» } }

/-- Modelled from the spec: `utils.MakeNameID` is not among the sources and the
spec says of it only that the identifier it generates is bounded by the
maximum size it is given. This is that bound, as a property of the imported
function. -/
def Imports.bounded (I : Imports) : Prop :=
  ∀ namedType id maxLen, (I.MakeNameID namedType id maxLen).length ≤ maxLen

/-! ## virtcontainers/persist/api/network.go -/

/-- The address type `netlink.Addr` of the external package netlink. The code
only copies addresses, so an address is a value identified by its text. -/
structure Addr where
  text : String
deriving DecidableEq, Repr

namespace persistapi

/-- Go `type NetworkInterface struct` of network.go (lines 15-19). -/
structure NetworkInterface where
  Name : String
  HardAddr : String
  Addrs : List Addr
deriving DecidableEq, Repr

/-- TapInterface defines a tap interface. -/
structure TapInterface where
  ID : String
  Name : String
  TAPIface : Kata.persistapi.NetworkInterface
deriving DecidableEq, Repr

/-- NetworkInterfacePair defines a pair between VM and virtual network
interfaces. `TapInterface` is an embedded struct, `NetInterworkingModel` a Go
`int`. -/
structure NetworkInterfacePair where
  TapInterface : Kata.persistapi.TapInterface
  VirtIface : Kata.persistapi.NetworkInterface
  NetInterworkingModel : Int
deriving DecidableEq, Repr

end persistapi

/-! ## The live network types and the helpers of endpoint.go -/

/-- Modelled from the spec: the live `NetInterworkingModel`, whose declaration
is not among the sources: an integer enumeration, so that the conversions
`int(m)` and `NetInterworkingModel(n)` of the helpers change no value. -/
abbrev NetInterworkingModel := Int

/-- Modelled from the spec: the live `NetworkInterface`, whose declaration is
not among the sources; these are the fields the helpers copy. -/
structure NetworkInterface where
  Name : String
  HardAddr : String
  Addrs : List Addr
deriving DecidableEq, Repr

/-- Modelled from the spec: the live `TapInterface`, whose declaration is not
among the sources: the fields the helpers copy and the transient
file-descriptor handles `VMFds` and `VhostFds`, which are never persisted
(the persisted struct says "remove VMFds and VhostFds"). A handle is
identified by its descriptor number. -/
structure TapInterface where
  ID : String
  Name : String
  TAPIface : Kata.NetworkInterface
  VMFds : List Nat
  VhostFds : List Nat
deriving DecidableEq, Repr

/-- Modelled from the spec: the live `NetworkInterfacePair`, whose declaration
is not among the sources: it owns a `TapInterface` (embedded) and a
`VirtIface`, plus the `NetInterworkingModel`. -/
structure NetworkInterfacePair where
  TapInterface : Kata.TapInterface
  VirtIface : Kata.NetworkInterface
  NetInterworkingModel : Kata.NetInterworkingModel
deriving DecidableEq, Repr

/-- `func saveTapIf(tapif *TapInterface) *persistapi.TapInterface`; `none` is
the nil pointer. -/
def saveTapIf : Option TapInterface → Option persistapi.TapInterface
  | none => none
  | some tapif =>
    some
      { ID := tapif.ID
        Name := tapif.Name
        TAPIface :=
          { Name := tapif.TAPIface.Name
            HardAddr := tapif.TAPIface.HardAddr
            Addrs := tapif.TAPIface.Addrs } }

/-- `func loadTapIf(tapif *persistapi.TapInterface) *TapInterface`. The fields
the composite literal does not name, `VMFds` and `VhostFds`, are nil. -/
def loadTapIf : Option persistapi.TapInterface → Option TapInterface
  | none => none
  | some tapif =>
    some
      { ID := tapif.ID
        Name := tapif.Name
        TAPIface :=
          { Name := tapif.TAPIface.Name
            HardAddr := tapif.TAPIface.HardAddr
            Addrs := tapif.TAPIface.Addrs }
        VMFds := []
        VhostFds := [] }

/-- `func saveNetIfPair(pair *NetworkInterfacePair) *persistapi.NetworkInterfacePair`.
`tapif` is the result of `saveTapIf` on a non-nil pointer, so the dereference
`*tapif` is of a non-nil pointer. -/
def saveNetIfPair : Option NetworkInterfacePair → Option persistapi.NetworkInterfacePair
  | none => none
  | some pair =>
    let epVirtIf := pair.VirtIface
    let tapif := saveTapIf (some pair.TapInterface)
    let virtif : persistapi.NetworkInterface :=
      { Name := epVirtIf.Name, HardAddr := epVirtIf.HardAddr, Addrs := epVirtIf.Addrs }
    some
      { TapInterface := tapif.get rfl
        VirtIface := virtif
        NetInterworkingModel := pair.NetInterworkingModel }

/-- `func loadNetIfPair(pair *persistapi.NetworkInterfacePair) *NetworkInterfacePair`. -/
def loadNetIfPair : Option persistapi.NetworkInterfacePair → Option NetworkInterfacePair
  | none => none
  | some pair =>
    let savedVirtIf := pair.VirtIface
    let tapif := loadTapIf (some pair.TapInterface)
    let virtif : NetworkInterface :=
      { Name := savedVirtIf.Name, HardAddr := savedVirtIf.HardAddr,
        Addrs := savedVirtIf.Addrs }
    some
      { TapInterface := tapif.get rfl
        VirtIface := virtif
        NetInterworkingModel := pair.NetInterworkingModel }

/-! ## Concrete receivers and devices used to run the model -/

/-- A sandbox-like receiver: its state is the block index, which
`GetAndSetSandboxBlockIndex` returns and increments and
`DecrementSandboxBlockIndex` decrements; `GetAndSetSandboxBlockIndex` returns
`getErr` and `HotplugAddDevice` returns `hotplugErr`. A failing
`GetAndSetSandboxBlockIndex` leaves the index as it is. -/
def counterReceiver (getErr hotplugErr : Option Error) : DeviceReceiver Int where
  HotplugAddDevice := fun _ _ index => (hotplugErr, index)
  GetAndSetSandboxBlockIndex := fun index =>
    match getErr with
    | some e => ((-1, some e), index)
    | none => ((index, none), index + 1)
  DecrementSandboxBlockIndex := fun index => index - 1

/-- A stand-in for the imported names: the identifier is type and id joined by
a dash and cut to the maximum size. -/
def sampleImports : Imports where
  MakeNameID := fun namedType id maxLen =>
    String.mk ((namedType ++ "-" ++ id).toList.take maxLen)
  maxDevIDSize := 31
  VhostUserBlk := "vhost-user-blk-pci"

/-- A device info for a vhost-user socket. -/
def sampleInfo : DeviceInfo :=
  { ID := "d0", HostPath := "/tmp/vhost.sock", DevType := "b", Major := 241, Minor := 0 }

/-- A descriptor as a first attach of `sampleInfo` stores it. -/
def sampleAttrs : VhostUserDeviceAttrs :=
  { DevID := "blk-d0", SocketPath := "/tmp/vhost.sock", «Type» := "" }

/-- A device that holds a descriptor. -/
def sampleAttached : VhostUserBlkDevice :=
  { GenericDevice := { ID := "d0", DeviceInfo := sampleInfo, AttachCount := 1 }
    VhostUserDeviceAttrs := some sampleAttrs }

/-- A record with the generic discriminator and no variant substructure at
all. -/
def sampleBareState : persistapi.DeviceState :=
  { ID := "d9", «Type» := "generic", HostPath := "/dev/vdz", DevType := "b",
    Major := 8, Minor := 1, VhostUserDev := none }

/-- A live interface pair with open file descriptors on its tap side. -/
def samplePair : NetworkInterfacePair :=
  { TapInterface :=
      { ID := "tap-id", Name := "br0_kata"
        TAPIface := { Name := "tap0_kata", HardAddr := "02:00:ca:fe:00:01",
                      Addrs := [⟨"10.0.0.2/24"⟩, ⟨"fe80::1/64"⟩] }
        VMFds := [7, 8]
        VhostFds := [9] }
    VirtIface := { Name := "eth0", HardAddr := "02:00:ca:fe:00:02",
                   Addrs := [⟨"10.0.0.3/24"⟩] }
    NetInterworkingModel := 3 }

/-! ## Endpoint types: `Set` and `String` -/

/-- C1: for each of the seven enumerated endpoint types `t`, `Set` called with
`String()` of `t` returns no error and leaves the receiver equal to `t`,
whatever value `r` the receiver held before. -/
theorem Set_String_enumerated (t : EndpointType) (h : t ∈ endpointTypes)
    (r : EndpointType) :
    EndpointType.Set r (EndpointType.String t) = (none, t) := by
  simp only [endpointTypes, List.mem_cons, List.mem_singleton, List.not_mem_nil,
    or_false] at h
  rcases h with rfl | rfl | rfl | rfl | rfl | rfl | rfl <;> rfl

/-- Witness of C1 at the tap type, on a receiver that held an unknown value. -/
theorem Set_String_enumerated_witness :
    TapEndpointType ∈ endpointTypes ∧
      EndpointType.Set "bogus" (EndpointType.String TapEndpointType)
        = (none, TapEndpointType) :=
  ⟨by decide, Set_String_enumerated TapEndpointType (by decide) "bogus"⟩

/-- C2: `Set` returns an error exactly when the string is not one of the seven
keywords (the match is exact: the empty string and a capitalised keyword are
rejected), and when it returns an error the receiver keeps its value. -/
theorem Set_error_iff_unknown (s : String) (r : EndpointType) :
    ((EndpointType.Set r s).1 ≠ none ↔ s ∉ endpointKeywords) ∧
      ((EndpointType.Set r s).1 ≠ none → (EndpointType.Set r s).2 = r) ∧
      (EndpointType.Set r "").1 ≠ none ∧
      (EndpointType.Set r "Physical").1 ≠ none ∧
      (EndpointType.Set r " tap").1 ≠ none := by
  refine ⟨?_, ?_, by simp [EndpointType.Set], by simp [EndpointType.Set],
    by simp [EndpointType.Set]⟩
  · unfold EndpointType.Set
    split_ifs <;> simp_all [endpointKeywords]
  · unfold EndpointType.Set
    split_ifs <;> simp

/-! ## The attach counter -/

/-- Incrementing never fails and adds one to the count. -/
theorem bumpAttachCount_true (g : GenericDevice) :
    (g.bumpAttachCount true).2.2 = none ∧
      (g.bumpAttachCount true).1 = { g with AttachCount := g.AttachCount + 1 } ∧
      ((g.bumpAttachCount true).2.1 = true ↔ 1 ≤ g.AttachCount) := by
  unfold GenericDevice.bumpAttachCount
  by_cases h : 1 ≤ g.AttachCount
  · simp [h]
  · have h0 : g.AttachCount = 0 := by omega
    simp [h0]

/-- Decrementing fails exactly at count 0, where it changes nothing; otherwise
it takes one off the count. -/
theorem bumpAttachCount_false (g : GenericDevice) :
    (g.AttachCount = 0 →
        (g.bumpAttachCount false).2.2 ≠ none ∧ (g.bumpAttachCount false).1 = g) ∧
      (1 ≤ g.AttachCount →
        (g.bumpAttachCount false).2.2 = none ∧
          (g.bumpAttachCount false).1 = { g with AttachCount := g.AttachCount - 1 }) := by
  unfold GenericDevice.bumpAttachCount
  constructor
  · intro h
    simp [h]
  · intro h
    have h0 : g.AttachCount ≠ 0 := by omega
    by_cases h1 : 1 ≤ g.AttachCount - 1 <;> simp [h0, h1]

/-! ## The four ways through `Attach` -/

/-- The device a first attach hands to the receiver, spelled out. -/
theorem Attach_handed_first (I : Imports) (device : VhostUserBlkDevice)
    (h0 : device.GenericDevice.AttachCount = 0) :
    Attach.handed I device
      = { GenericDevice := { device.GenericDevice with AttachCount := 1 }
          VhostUserDeviceAttrs := some (Attach.vAttrs I device) } := by
  simp [Attach.handed, GenericDevice.bumpAttachCount, h0]

/-- Setting the count of a device to the value it has changes nothing. -/
theorem GenericDevice_count_eta (g : GenericDevice) (n : Nat) (h : g.AttachCount = n) :
    ({ g with AttachCount := n } : GenericDevice) = g := by
  subst h
  rfl

/-- Already attached: only the counter moves. -/
theorem Attach_skip {σ : Type} (I : Imports) (device : VhostUserBlkDevice)
    (devReceiver : DeviceReceiver σ) (receiver : σ)
    (h : 1 ≤ device.GenericDevice.AttachCount) :
    device.Attach I devReceiver receiver
      = { err := none
          device := { device with
            GenericDevice := { device.GenericDevice with
              AttachCount := device.GenericDevice.AttachCount + 1 } }
          receiver := receiver
          trace := [Event.bumpAttachCount true] } := by
  simp [VhostUserBlkDevice.Attach, GenericDevice.bumpAttachCount, h]

/-- First attach, the block index allocation fails. -/
theorem Attach_index_error {σ : Type} (I : Imports) (device : VhostUserBlkDevice)
    (devReceiver : DeviceReceiver σ) (receiver : σ) (e : Error)
    (h0 : device.GenericDevice.AttachCount = 0)
    (hget : (devReceiver.GetAndSetSandboxBlockIndex receiver).1.2 = some e) :
    device.Attach I devReceiver receiver
      = { err := some e
          device := device
          receiver := devReceiver.DecrementSandboxBlockIndex
            (devReceiver.GetAndSetSandboxBlockIndex receiver).2
          trace := [Event.bumpAttachCount true, Event.GetAndSetSandboxBlockIndex,
            Event.DecrementSandboxBlockIndex, Event.bumpAttachCount false] } := by
  have hd : ({ GenericDevice := { device.GenericDevice with AttachCount := 0 }
               VhostUserDeviceAttrs := device.VhostUserDeviceAttrs } : VhostUserBlkDevice)
      = device := by
    rw [← h0]
  simp [VhostUserBlkDevice.Attach, GenericDevice.bumpAttachCount, h0, hget,
    Attach.deferred, hd]

/-- First attach, the hotplug fails. -/
theorem Attach_hotplug_error {σ : Type} (I : Imports) (device : VhostUserBlkDevice)
    (devReceiver : DeviceReceiver σ) (receiver : σ) (e : Error)
    (h0 : device.GenericDevice.AttachCount = 0)
    (hget : (devReceiver.GetAndSetSandboxBlockIndex receiver).1.2 = none)
    (hhot : (devReceiver.HotplugAddDevice (Attach.handed I device) I.VhostUserBlk
      (devReceiver.GetAndSetSandboxBlockIndex receiver).2).1 = some e) :
    device.Attach I devReceiver receiver
      = { err := some e
          device := { GenericDevice := device.GenericDevice
                      VhostUserDeviceAttrs := some (Attach.vAttrs I device) }
          receiver := devReceiver.DecrementSandboxBlockIndex
            (devReceiver.HotplugAddDevice (Attach.handed I device) I.VhostUserBlk
              (devReceiver.GetAndSetSandboxBlockIndex receiver).2).2
          trace := [Event.bumpAttachCount true, Event.GetAndSetSandboxBlockIndex,
            Event.HotplugAddDevice (Attach.handed I device) I.VhostUserBlk,
            Event.DecrementSandboxBlockIndex, Event.bumpAttachCount false] } := by
  have hg := GenericDevice_count_eta device.GenericDevice 0 h0
  rw [Attach_handed_first I device h0] at hhot ⊢
  simp only [Attach.vAttrs] at hhot
  simp [VhostUserBlkDevice.Attach, GenericDevice.bumpAttachCount, h0, hget, hhot,
    Attach.deferred, Attach.vAttrs, hg]

/-- First attach, everything succeeds. -/
theorem Attach_ok {σ : Type} (I : Imports) (device : VhostUserBlkDevice)
    (devReceiver : DeviceReceiver σ) (receiver : σ)
    (h0 : device.GenericDevice.AttachCount = 0)
    (hget : (devReceiver.GetAndSetSandboxBlockIndex receiver).1.2 = none)
    (hhot : (devReceiver.HotplugAddDevice (Attach.handed I device) I.VhostUserBlk
      (devReceiver.GetAndSetSandboxBlockIndex receiver).2).1 = none) :
    device.Attach I devReceiver receiver
      = { err := none
          device := Attach.handed I device
          receiver := (devReceiver.HotplugAddDevice (Attach.handed I device) I.VhostUserBlk
              (devReceiver.GetAndSetSandboxBlockIndex receiver).2).2
          trace := [Event.bumpAttachCount true, Event.GetAndSetSandboxBlockIndex,
            Event.HotplugAddDevice (Attach.handed I device) I.VhostUserBlk] } := by
  rw [Attach_handed_first I device h0] at hhot ⊢
  simp only [Attach.vAttrs] at hhot
  simp [VhostUserBlkDevice.Attach, GenericDevice.bumpAttachCount, h0, hget, hhot,
    Attach.deferred, Attach.vAttrs]

/-! ## Attach on a device that is already attached -/

/-- C3: on a device whose attach count is at least 1, `Attach` returns no
error, adds exactly one to the attach count and changes nothing else on the
device (so `VhostUserDeviceAttrs` is as before); its only step is the counter
increment, so no receiver method is called and the receiver is as before.
The counter of the model has no maximum, so this holds at every count from 1
on. -/
theorem Attach_already_attached {σ : Type} (I : Imports) (device : VhostUserBlkDevice)
    (devReceiver : DeviceReceiver σ) (receiver : σ)
    (h : 1 ≤ device.GenericDevice.AttachCount) :
    (device.Attach I devReceiver receiver).err = none ∧
      (device.Attach I devReceiver receiver).device.GenericDevice.AttachCount
        = device.GenericDevice.AttachCount + 1 ∧
      (device.Attach I devReceiver receiver).device
        = { device with
            GenericDevice :=
              { device.GenericDevice with
                AttachCount := device.GenericDevice.AttachCount + 1 } } ∧
      (device.Attach I devReceiver receiver).device.VhostUserDeviceAttrs
        = device.VhostUserDeviceAttrs ∧
      (device.Attach I devReceiver receiver).trace = [Event.bumpAttachCount true] ∧
      (device.Attach I devReceiver receiver).trace.filter Event.isReceiverCall = [] ∧
      (device.Attach I devReceiver receiver).receiver = receiver := by
  simp [VhostUserBlkDevice.Attach, GenericDevice.bumpAttachCount, h, Event.isReceiverCall]

/-- Witness of C3: a device attached twice already, on a receiver whose every
call would fail. -/
theorem Attach_already_attached_witness :
    1 ≤ ({ GenericDevice := { ID := "d0", DeviceInfo := sampleInfo, AttachCount := 2 }
           VhostUserDeviceAttrs := none } : VhostUserBlkDevice).GenericDevice.AttachCount ∧
      (({ GenericDevice := { ID := "d0", DeviceInfo := sampleInfo, AttachCount := 2 }
          VhostUserDeviceAttrs := none } : VhostUserBlkDevice).Attach sampleImports
        (counterReceiver (some ⟨"no index"⟩) (some ⟨"no hotplug"⟩)) 7).err = none :=
  ⟨by decide,
    (Attach_already_attached sampleImports
      { GenericDevice := { ID := "d0", DeviceInfo := sampleInfo, AttachCount := 2 }
        VhostUserDeviceAttrs := none }
      (counterReceiver (some ⟨"no index"⟩) (some ⟨"no hotplug"⟩)) 7 (by decide)).1⟩

/-! ## First attach -/

/-- C4: on a device with attach count 0, when `GetAndSetSandboxBlockIndex`
succeeds and the `HotplugAddDevice` call that follows succeeds, `Attach`
returns no error and leaves the attach count at 1; the receiver sees exactly
one `GetAndSetSandboxBlockIndex` and then one
`HotplugAddDevice(device, VhostUserBlk)`, the device being the one `Attach`
leaves behind, and `DecrementSandboxBlockIndex` is not called. -/
theorem Attach_first_success {σ : Type} (I : Imports) (device : VhostUserBlkDevice)
    (devReceiver : DeviceReceiver σ) (receiver : σ)
    (h0 : device.GenericDevice.AttachCount = 0)
    (hget : (devReceiver.GetAndSetSandboxBlockIndex receiver).1.2 = none)
    (hhot : (devReceiver.HotplugAddDevice (Attach.handed I device) I.VhostUserBlk
      (devReceiver.GetAndSetSandboxBlockIndex receiver).2).1 = none) :
    (device.Attach I devReceiver receiver).err = none ∧
      (device.Attach I devReceiver receiver).device.GenericDevice.AttachCount = 1 ∧
      (device.Attach I devReceiver receiver).device = Attach.handed I device ∧
      (device.Attach I devReceiver receiver).trace.filter Event.isReceiverCall
        = [Event.GetAndSetSandboxBlockIndex,
           Event.HotplugAddDevice (device.Attach I devReceiver receiver).device
             I.VhostUserBlk] ∧
      (device.Attach I devReceiver receiver).trace
        = [Event.bumpAttachCount true, Event.GetAndSetSandboxBlockIndex,
           Event.HotplugAddDevice (device.Attach I devReceiver receiver).device
             I.VhostUserBlk] ∧
      Event.DecrementSandboxBlockIndex ∉ (device.Attach I devReceiver receiver).trace := by
  simp [Attach.handed, Attach.vAttrs, GenericDevice.bumpAttachCount, h0] at hhot
  simp [VhostUserBlkDevice.Attach, GenericDevice.bumpAttachCount, h0, hget, hhot,
    Attach.deferred, Event.isReceiverCall, Attach.handed, Attach.vAttrs]

/-- Witness of C4: a fresh device on a receiver whose calls succeed. -/
theorem Attach_first_success_witness :
    (NewVhostUserBlkDevice sampleInfo).GenericDevice.AttachCount = 0 ∧
      ((NewVhostUserBlkDevice sampleInfo).Attach sampleImports
        (counterReceiver none none) 5).err = none ∧
      ((NewVhostUserBlkDevice sampleInfo).Attach sampleImports
        (counterReceiver none none) 5).device.GenericDevice.AttachCount = 1 :=
  ⟨rfl,
   (Attach_first_success sampleImports (NewVhostUserBlkDevice sampleInfo)
      (counterReceiver none none) 5 rfl rfl rfl).1,
   (Attach_first_success sampleImports (NewVhostUserBlkDevice sampleInfo)
      (counterReceiver none none) 5 rfl rfl rfl).2.1⟩

/-! ## Failures of a first attach -/

/-- C5: on a device with attach count 0, when `GetAndSetSandboxBlockIndex`
returns an error, `Attach` returns an error, the attach count is 0 again when
it returns (the device is as it was), and `HotplugAddDevice` is not called. -/
theorem Attach_index_failure {σ : Type} (I : Imports) (device : VhostUserBlkDevice)
    (devReceiver : DeviceReceiver σ) (receiver : σ)
    (h0 : device.GenericDevice.AttachCount = 0)
    (hget : (devReceiver.GetAndSetSandboxBlockIndex receiver).1.2 ≠ none) :
    (device.Attach I devReceiver receiver).err ≠ none ∧
      (device.Attach I devReceiver receiver).device.GenericDevice.AttachCount = 0 ∧
      (device.Attach I devReceiver receiver).device = device ∧
      (device.Attach I devReceiver receiver).trace.filter Event.isHotplugAddDevice = [] ∧
      ∀ d t, Event.HotplugAddDevice d t ∉ (device.Attach I devReceiver receiver).trace := by
  obtain ⟨e, he⟩ := Option.ne_none_iff_exists'.mp hget
  have hd : ({ GenericDevice := { device.GenericDevice with AttachCount := 0 }
               VhostUserDeviceAttrs := device.VhostUserDeviceAttrs } : VhostUserBlkDevice)
      = device := by
    rw [← h0]
  simp [VhostUserBlkDevice.Attach, GenericDevice.bumpAttachCount, h0, he,
    Attach.deferred, Event.isHotplugAddDevice, hd]

/-- Witness of C5: a fresh device on a receiver that has no block index to
give. -/
theorem Attach_index_failure_witness :
    (NewVhostUserBlkDevice sampleInfo).GenericDevice.AttachCount = 0 ∧
      ((counterReceiver (some ⟨"no index"⟩) none).GetAndSetSandboxBlockIndex 5).1.2 ≠ none ∧
      ((NewVhostUserBlkDevice sampleInfo).Attach sampleImports
        (counterReceiver (some ⟨"no index"⟩) none) 5).err ≠ none ∧
      ((NewVhostUserBlkDevice sampleInfo).Attach sampleImports
        (counterReceiver (some ⟨"no index"⟩) none) 5).device.GenericDevice.AttachCount = 0 :=
  ⟨rfl, by decide,
   (Attach_index_failure sampleImports (NewVhostUserBlkDevice sampleInfo)
      (counterReceiver (some ⟨"no index"⟩) none) 5 rfl (by decide)).1,
   (Attach_index_failure sampleImports (NewVhostUserBlkDevice sampleInfo)
      (counterReceiver (some ⟨"no index"⟩) none) 5 rfl (by decide)).2.1⟩

/-- C6: on a device with attach count 0, when `GetAndSetSandboxBlockIndex`
succeeds and the `HotplugAddDevice` call that follows returns an error,
`Attach` returns an error after exactly these steps: counter increment,
`GetAndSetSandboxBlockIndex`, the failed `HotplugAddDevice`, then
`DecrementSandboxBlockIndex` (once), then the counter decrement. On return the
attach count is 0, and for every reading `index` of the receiver state that
a successful `GetAndSetSandboxBlockIndex` raises by one, that
`DecrementSandboxBlockIndex` lowers by one and that `HotplugAddDevice` leaves
alone, the index is what it was before the call. -/
theorem Attach_hotplug_failure_compensation {σ : Type} (I : Imports)
    (device : VhostUserBlkDevice) (devReceiver : DeviceReceiver σ) (receiver : σ)
    (h0 : device.GenericDevice.AttachCount = 0)
    (hget : (devReceiver.GetAndSetSandboxBlockIndex receiver).1.2 = none)
    (hhot : (devReceiver.HotplugAddDevice (Attach.handed I device) I.VhostUserBlk
      (devReceiver.GetAndSetSandboxBlockIndex receiver).2).1 ≠ none) :
    (device.Attach I devReceiver receiver).err ≠ none ∧
      (device.Attach I devReceiver receiver).trace
        = [Event.bumpAttachCount true, Event.GetAndSetSandboxBlockIndex,
           Event.HotplugAddDevice (Attach.handed I device) I.VhostUserBlk,
           Event.DecrementSandboxBlockIndex, Event.bumpAttachCount false] ∧
      (device.Attach I devReceiver receiver).trace.count Event.DecrementSandboxBlockIndex
        = 1 ∧
      (device.Attach I devReceiver receiver).device.GenericDevice.AttachCount = 0 ∧
      ∀ index : σ → Int,
        (∀ s, (devReceiver.GetAndSetSandboxBlockIndex s).1.2 = none →
          index (devReceiver.GetAndSetSandboxBlockIndex s).2 = index s + 1) →
        (∀ s, index (devReceiver.DecrementSandboxBlockIndex s) = index s - 1) →
        (∀ d t s, index (devReceiver.HotplugAddDevice d t s).2 = index s) →
        index (device.Attach I devReceiver receiver).receiver = index receiver := by
  obtain ⟨e, he⟩ := Option.ne_none_iff_exists'.mp hhot
  simp [Attach.handed, Attach.vAttrs, GenericDevice.bumpAttachCount, h0] at he
  refine ⟨?_, ?_, ?_, ?_, ?_⟩
  · simp [VhostUserBlkDevice.Attach, GenericDevice.bumpAttachCount, h0, hget, he,
      Attach.deferred, Attach.vAttrs]
  · simp [VhostUserBlkDevice.Attach, GenericDevice.bumpAttachCount, h0, hget, he,
      Attach.deferred, Attach.vAttrs, Attach.handed]
  · simp [VhostUserBlkDevice.Attach, GenericDevice.bumpAttachCount, h0, hget, he,
      Attach.deferred, Attach.vAttrs, List.count_cons]
  · simp [VhostUserBlkDevice.Attach, GenericDevice.bumpAttachCount, h0, hget, he,
      Attach.deferred, Attach.vAttrs]
  · intro index hinc hdec hhp
    simp [VhostUserBlkDevice.Attach, GenericDevice.bumpAttachCount, h0, hget, he,
      Attach.deferred, Attach.vAttrs, hdec, hhp, hinc receiver hget]

/-- Witness of C6: a fresh device on a sandbox-like receiver at block index 5
whose hotplug fails; the block index is 5 again afterwards. -/
theorem Attach_hotplug_failure_compensation_witness :
    (NewVhostUserBlkDevice sampleInfo).GenericDevice.AttachCount = 0 ∧
      ((NewVhostUserBlkDevice sampleInfo).Attach sampleImports
        (counterReceiver none (some ⟨"no hotplug"⟩)) 5).device.GenericDevice.AttachCount = 0 ∧
      ((NewVhostUserBlkDevice sampleInfo).Attach sampleImports
        (counterReceiver none (some ⟨"no hotplug"⟩)) 5).receiver = 5 :=
  ⟨rfl,
   (Attach_hotplug_failure_compensation sampleImports (NewVhostUserBlkDevice sampleInfo)
      (counterReceiver none (some ⟨"no hotplug"⟩)) 5 rfl rfl (by decide)).2.2.2.1,
   (Attach_hotplug_failure_compensation sampleImports (NewVhostUserBlkDevice sampleInfo)
      (counterReceiver none (some ⟨"no hotplug"⟩)) 5 rfl rfl (by decide)).2.2.2.2
      id (fun _ _ => rfl) (fun _ => rfl) (fun _ _ _ => rfl)⟩

/-! ## What a failed attach leaves on the device -/

/-- C7, counterexample: a fresh device (no attributes yet) on a receiver whose
block index allocation succeeds and whose hotplug fails. `Attach` returns the
hotplug error and the attach count is 0 as before, but `GetDeviceInfo`, nil
before the call, returns the descriptor built for the failed hotplug. -/
theorem Attach_error_changes_attrs :
    ((NewVhostUserBlkDevice sampleInfo).Attach sampleImports
        (counterReceiver none (some ⟨"no hotplug"⟩)) 5).err = some ⟨"no hotplug"⟩ ∧
      (NewVhostUserBlkDevice sampleInfo).GetDeviceInfo = none ∧
      ((NewVhostUserBlkDevice sampleInfo).Attach sampleImports
        (counterReceiver none (some ⟨"no hotplug"⟩)) 5).device.GetDeviceInfo
        = some { DevID := "blk-d0", SocketPath := "/tmp/vhost.sock", «Type» := "" } ∧
      ((NewVhostUserBlkDevice sampleInfo).Attach sampleImports
        (counterReceiver none (some ⟨"no hotplug"⟩)) 5).device.GetDeviceInfo
        ≠ (NewVhostUserBlkDevice sampleInfo).GetDeviceInfo := by
  decide

/-- C7, amended: when `Attach` returns an error, the generic device state, the
attach count in it, is what it was before the call. `GetDeviceInfo` returns
what it returned before the call when `HotplugAddDevice` was not called; when
it was called (and failed), `GetDeviceInfo` returns the descriptor built for
that call. -/
theorem Attach_error_state {σ : Type} (I : Imports) (device : VhostUserBlkDevice)
    (devReceiver : DeviceReceiver σ) (receiver : σ)
    (herr : (device.Attach I devReceiver receiver).err ≠ none) :
    (device.Attach I devReceiver receiver).device.GenericDevice.AttachCount
        = device.GenericDevice.AttachCount ∧
      (device.Attach I devReceiver receiver).device.GenericDevice = device.GenericDevice ∧
      ((device.Attach I devReceiver receiver).trace.any Event.isHotplugAddDevice = false →
        (device.Attach I devReceiver receiver).device.GetDeviceInfo
          = device.GetDeviceInfo) ∧
      ((device.Attach I devReceiver receiver).trace.any Event.isHotplugAddDevice = true →
        (device.Attach I devReceiver receiver).device.GetDeviceInfo
          = some (Attach.vAttrs I device)) := by
  by_cases h1 : 1 ≤ device.GenericDevice.AttachCount
  · rw [Attach_skip I device devReceiver receiver h1] at herr
    exact absurd rfl herr
  · have h0 : device.GenericDevice.AttachCount = 0 := by omega
    rcases hget : (devReceiver.GetAndSetSandboxBlockIndex receiver).1.2 with _ | e
    · rcases hhot : (devReceiver.HotplugAddDevice (Attach.handed I device) I.VhostUserBlk
          (devReceiver.GetAndSetSandboxBlockIndex receiver).2).1 with _ | e
      · rw [Attach_ok I device devReceiver receiver h0 hget hhot] at herr
        exact absurd rfl herr
      · rw [Attach_hotplug_error I device devReceiver receiver e h0 hget hhot]
        simp [VhostUserBlkDevice.GetDeviceInfo, Event.isHotplugAddDevice]
    · rw [Attach_index_error I device devReceiver receiver e h0 hget]
      simp [VhostUserBlkDevice.GetDeviceInfo, Event.isHotplugAddDevice]

/-- Witness of C7 amended, at the input of the counterexample. -/
theorem Attach_error_state_witness :
    ((NewVhostUserBlkDevice sampleInfo).Attach sampleImports
        (counterReceiver none (some ⟨"no hotplug"⟩)) 5).err ≠ none ∧
      ((NewVhostUserBlkDevice sampleInfo).Attach sampleImports
        (counterReceiver none (some ⟨"no hotplug"⟩)) 5).device.GenericDevice.AttachCount
        = (NewVhostUserBlkDevice sampleInfo).GenericDevice.AttachCount :=
  ⟨by decide,
   (Attach_error_state sampleImports (NewVhostUserBlkDevice sampleInfo)
      (counterReceiver none (some ⟨"no hotplug"⟩)) 5 (by decide)).1⟩

/-! ## Which error a failed first attach returns -/

/-- C8: on a device with attach count 0, when `GetAndSetSandboxBlockIndex`
returns the error `e`, `Attach` returns `e`; when it succeeds and the
`HotplugAddDevice` call that follows returns the error `e`, `Attach` returns
`e`. -/
theorem Attach_returns_receiver_error {σ : Type} (I : Imports)
    (device : VhostUserBlkDevice) (devReceiver : DeviceReceiver σ) (receiver : σ)
    (e : Error) (h0 : device.GenericDevice.AttachCount = 0) :
    ((devReceiver.GetAndSetSandboxBlockIndex receiver).1.2 = some e →
        (device.Attach I devReceiver receiver).err = some e) ∧
      ((devReceiver.GetAndSetSandboxBlockIndex receiver).1.2 = none →
        (devReceiver.HotplugAddDevice (Attach.handed I device) I.VhostUserBlk
          (devReceiver.GetAndSetSandboxBlockIndex receiver).2).1 = some e →
        (device.Attach I devReceiver receiver).err = some e) := by
  constructor
  · intro hget
    rw [Attach_index_error I device devReceiver receiver e h0 hget]
  · intro hget hhot
    rw [Attach_hotplug_error I device devReceiver receiver e h0 hget hhot]

/-- Witness of C8: the allocation error of one receiver and the hotplug error
of another come back as they are. -/
theorem Attach_returns_receiver_error_witness :
    (NewVhostUserBlkDevice sampleInfo).GenericDevice.AttachCount = 0 ∧
      ((NewVhostUserBlkDevice sampleInfo).Attach sampleImports
        (counterReceiver (some ⟨"no index"⟩) none) 5).err = some ⟨"no index"⟩ ∧
      ((NewVhostUserBlkDevice sampleInfo).Attach sampleImports
        (counterReceiver none (some ⟨"no hotplug"⟩)) 5).err = some ⟨"no hotplug"⟩ :=
  ⟨rfl,
   (Attach_returns_receiver_error sampleImports (NewVhostUserBlkDevice sampleInfo)
      (counterReceiver (some ⟨"no index"⟩) none) 5 ⟨"no index"⟩ rfl).1 rfl,
   (Attach_returns_receiver_error sampleImports (NewVhostUserBlkDevice sampleInfo)
      (counterReceiver none (some ⟨"no hotplug"⟩)) 5 ⟨"no hotplug"⟩ rfl).2 rfl rfl⟩

/-! ## Detach -/

/-- C9: on a device whose attach count is 0, `Detach` returns an error and the
attach count is still 0 afterwards; the device and the receiver are as they
were. -/
theorem Detach_unattached {σ : Type} (device : VhostUserBlkDevice)
    (devReceiver : DeviceReceiver σ) (receiver : σ)
    (h0 : device.GenericDevice.AttachCount = 0) :
    (device.Detach devReceiver receiver).err ≠ none ∧
      (device.Detach devReceiver receiver).device.GenericDevice.AttachCount = 0 ∧
      (device.Detach devReceiver receiver).device = device ∧
      (device.Detach devReceiver receiver).receiver = receiver := by
  simp [VhostUserBlkDevice.Detach, GenericDevice.bumpAttachCount, h0]

/-- Witness of C9: detaching a device that was never attached. -/
theorem Detach_unattached_witness :
    (NewVhostUserBlkDevice sampleInfo).GenericDevice.AttachCount = 0 ∧
      ((NewVhostUserBlkDevice sampleInfo).Detach (counterReceiver none none) 5).err ≠ none ∧
      ((NewVhostUserBlkDevice sampleInfo).Detach
        (counterReceiver none none) 5).device.GenericDevice.AttachCount = 0 :=
  ⟨rfl,
   (Detach_unattached (NewVhostUserBlkDevice sampleInfo) (counterReceiver none none) 5 rfl).1,
   (Detach_unattached (NewVhostUserBlkDevice sampleInfo) (counterReceiver none none) 5 rfl).2.1⟩

/-! ## Sequences of Attach and Detach -/

/-- A successful `Attach` adds one to the count, a failed one leaves it. -/
theorem Attach_count {σ : Type} (I : Imports) (device : VhostUserBlkDevice)
    (devReceiver : DeviceReceiver σ) (receiver : σ) :
    (device.Attach I devReceiver receiver).device.GenericDevice.AttachCount
      = device.GenericDevice.AttachCount
        + (if (device.Attach I devReceiver receiver).err.isNone then 1 else 0) := by
  by_cases h1 : 1 ≤ device.GenericDevice.AttachCount
  · rw [Attach_skip I device devReceiver receiver h1]
    simp
  · have h0 : device.GenericDevice.AttachCount = 0 := by omega
    rcases hget : (devReceiver.GetAndSetSandboxBlockIndex receiver).1.2 with _ | e
    · rcases hhot : (devReceiver.HotplugAddDevice (Attach.handed I device) I.VhostUserBlk
          (devReceiver.GetAndSetSandboxBlockIndex receiver).2).1 with _ | e
      · rw [Attach_ok I device devReceiver receiver h0 hget hhot,
          Attach_handed_first I device h0]
        simp [h0]
      · rw [Attach_hotplug_error I device devReceiver receiver e h0 hget hhot]
        simp
    · rw [Attach_index_error I device devReceiver receiver e h0 hget]
      simp

/-- Only a first attach reaches `HotplugAddDevice`. -/
theorem Attach_hotplug_first {σ : Type} (I : Imports) (device : VhostUserBlkDevice)
    (devReceiver : DeviceReceiver σ) (receiver : σ)
    (h : (device.Attach I devReceiver receiver).trace.any Event.isHotplugAddDevice = true) :
    device.GenericDevice.AttachCount = 0 := by
  by_contra hne
  have h1 : 1 ≤ device.GenericDevice.AttachCount := by omega
  rw [Attach_skip I device devReceiver receiver h1] at h
  simp [Event.isHotplugAddDevice] at h

/-- A successful `Detach` takes one off the count, a failed one leaves it. -/
theorem Detach_count {σ : Type} (device : VhostUserBlkDevice)
    (devReceiver : DeviceReceiver σ) (receiver : σ) :
    (device.Detach devReceiver receiver).device.GenericDevice.AttachCount
        + (if (device.Detach devReceiver receiver).err.isNone then 1 else 0)
      = device.GenericDevice.AttachCount := by
  by_cases h0 : device.GenericDevice.AttachCount = 0
  · simp [VhostUserBlkDevice.Detach, GenericDevice.bumpAttachCount, h0]
  · by_cases h1 : 1 ≤ device.GenericDevice.AttachCount - 1
    · simp [VhostUserBlkDevice.Detach, GenericDevice.bumpAttachCount, h0, h1]
      omega
    · simp [VhostUserBlkDevice.Detach, GenericDevice.bumpAttachCount, h0, h1]
      omega

/-- The device after a log that starts with the step `st`. -/
theorem deviceAfter_cons {σ : Type} (device : VhostUserBlkDevice) (st : Step σ)
    (log : List (Step σ)) :
    deviceAfter device (st :: log) = deviceAfter st.outcome.device log := by
  cases log with
  | nil => simp [deviceAfter]
  | cons a l =>
    unfold deviceAfter
    rw [List.getLast?_cons_cons, List.getLast?_eq_getLast (a :: l) (List.cons_ne_nil a l)]

/-- Counting successes in a log that starts with the step `st`. -/
theorem succeeded_cons {σ : Type} (c : Call) (st : Step σ) (log : List (Step σ)) :
    succeeded c (st :: log)
      = (if (decide (st.call = c) && st.outcome.err.isNone) = true then 1 else 0)
        + succeeded c log := by
  unfold succeeded
  simp only [List.filter_cons]
  split
  · simp [Nat.add_comm]
  · simp

/-- The count after a sequence, from any starting count. -/
theorem runCalls_count {σ : Type} (I : Imports) (devReceiver : DeviceReceiver σ)
    (calls : List Call) (device : VhostUserBlkDevice) (receiver : σ) :
    (deviceAfter device (runCalls I devReceiver calls device receiver)).GenericDevice.AttachCount
        + succeeded Call.Detach (runCalls I devReceiver calls device receiver)
      = device.GenericDevice.AttachCount
        + succeeded Call.Attach (runCalls I devReceiver calls device receiver) := by
  induction calls generalizing device receiver with
  | nil => simp [runCalls, deviceAfter, succeeded]
  | cons c cs ih =>
    simp only [runCalls, deviceAfter_cons, succeeded_cons]
    have hrec := ih (c.run I devReceiver device receiver).device
      (c.run I devReceiver device receiver).receiver
    cases c with
    | Attach =>
      have ha := Attach_count I device devReceiver receiver
      simp only [Call.run] at hrec ⊢
      by_cases he : (device.Attach I devReceiver receiver).err.isNone = true
      · simp [he] at ha ⊢
        omega
      · simp [he] at ha ⊢
        omega
    | Detach =>
      have hd := Detach_count device devReceiver receiver
      simp only [Call.run] at hrec ⊢
      by_cases he : (device.Detach devReceiver receiver).err.isNone = true
      · simp [he] at hd ⊢
        omega
      · simp [he] at hd ⊢
        omega

/-- Running a prefix of the calls gives the same prefix of the log. -/
theorem runCalls_take {σ : Type} (I : Imports) (devReceiver : DeviceReceiver σ)
    (calls : List Call) (device : VhostUserBlkDevice) (receiver : σ) (n : Nat) :
    runCalls I devReceiver (calls.take n) device receiver
      = (runCalls I devReceiver calls device receiver).take n := by
  induction calls generalizing device receiver n with
  | nil => simp [runCalls]
  | cons c cs ih =>
    cases n with
    | zero => simp [runCalls]
    | succ m => simp [runCalls, ih]

/-- In a run, `HotplugAddDevice` is reached only by an `Attach` that finds the
count at 0. -/
theorem runCalls_hotplug {σ : Type} (I : Imports) (devReceiver : DeviceReceiver σ)
    (calls : List Call) (device : VhostUserBlkDevice) (receiver : σ) :
    ∀ st ∈ runCalls I devReceiver calls device receiver, st.hotplugged = true →
      st.call = Call.Attach ∧ st.before.GenericDevice.AttachCount = 0 := by
  induction calls generalizing device receiver with
  | nil => simp [runCalls]
  | cons c cs ih =>
    intro st hst hh
    simp only [runCalls, List.mem_cons] at hst
    rcases hst with rfl | hst
    · cases c with
      | Attach =>
        exact ⟨rfl, Attach_hotplug_first I device devReceiver receiver
          (by simpa [Step.hotplugged, Call.run] using hh)⟩
      | Detach =>
        simp [Step.hotplugged, Call.run, VhostUserBlkDevice.Detach,
          Event.isHotplugAddDevice] at hh
    · exact ih _ _ st hst hh

/-- C10: run any finite sequence of `Attach` and `Detach` calls on one device
that starts with attach count 0, against any receiver in any state. After each
call (after the first `n` calls, for every `n`) the attach count equals the
number of `Attach` calls so far that returned no error minus the number of
`Detach` calls so far that returned no error, and a call that reached
`HotplugAddDevice` is an `Attach` that found the attach count at 0. -/
theorem AttachCount_counts_successes {σ : Type} (I : Imports)
    (devReceiver : DeviceReceiver σ) (calls : List Call) (device : VhostUserBlkDevice)
    (receiver : σ) (h0 : device.GenericDevice.AttachCount = 0) :
    (∀ n : Nat,
        ((deviceAfter device ((runCalls I devReceiver calls device receiver).take n)
            ).GenericDevice.AttachCount : Int)
          = (succeeded Call.Attach ((runCalls I devReceiver calls device receiver).take n) : Int)
            - (succeeded Call.Detach
                ((runCalls I devReceiver calls device receiver).take n) : Int)) ∧
      (∀ st ∈ runCalls I devReceiver calls device receiver, st.hotplugged = true →
        st.call = Call.Attach ∧ st.before.GenericDevice.AttachCount = 0) := by
  refine ⟨?_, runCalls_hotplug I devReceiver calls device receiver⟩
  intro n
  have h := runCalls_count I devReceiver (calls.take n) device receiver
  rw [runCalls_take, h0] at h
  omega

/-- Witness of C10: attach twice, then detach three times, on a fresh device;
the third detach fails and the count ends at 0 = 2 - 2. -/
theorem AttachCount_counts_successes_witness :
    (NewVhostUserBlkDevice sampleInfo).GenericDevice.AttachCount = 0 ∧
      ((deviceAfter (NewVhostUserBlkDevice sampleInfo)
          ((runCalls sampleImports (counterReceiver none none)
            [Call.Attach, Call.Attach, Call.Detach, Call.Detach, Call.Detach]
            (NewVhostUserBlkDevice sampleInfo) 5).take 5)).GenericDevice.AttachCount : Int)
        = (succeeded Call.Attach
            ((runCalls sampleImports (counterReceiver none none)
              [Call.Attach, Call.Attach, Call.Detach, Call.Detach, Call.Detach]
              (NewVhostUserBlkDevice sampleInfo) 5).take 5) : Int)
          - (succeeded Call.Detach
            ((runCalls sampleImports (counterReceiver none none)
              [Call.Attach, Call.Attach, Call.Detach, Call.Detach, Call.Detach]
              (NewVhostUserBlkDevice sampleInfo) 5).take 5) : Int) :=
  ⟨rfl,
   (AttachCount_counts_successes sampleImports (counterReceiver none none)
      [Call.Attach, Call.Attach, Call.Detach, Call.Detach, Call.Detach]
      (NewVhostUserBlkDevice sampleInfo) 5 rfl).1 5⟩

/-! ## Save and Load of the vhost-user block device -/

/-- C11: loading `Save(x)` into a freshly constructed device gives a device
whose `VhostUserDeviceAttrs` (what `GetDeviceInfo` returns) equals that of
`x`: nil when it is nil on `x`, otherwise a descriptor with the same `DevID`,
`SocketPath` and `Type`. -/
theorem Load_Save_attrs (I : Imports) (deviceGeneric : DeviceType)
    (x : VhostUserBlkDevice) (devInfo : DeviceInfo) :
    ((NewVhostUserBlkDevice devInfo).Load (x.Save I deviceGeneric)).VhostUserDeviceAttrs
        = x.VhostUserDeviceAttrs ∧
      ((NewVhostUserBlkDevice devInfo).Load (x.Save I deviceGeneric)).GetDeviceInfo
        = x.GetDeviceInfo ∧
      (x.VhostUserDeviceAttrs = none →
        ((NewVhostUserBlkDevice devInfo).Load (x.Save I deviceGeneric)).GetDeviceInfo
          = none) ∧
      (∀ a, x.VhostUserDeviceAttrs = some a →
        ((NewVhostUserBlkDevice devInfo).Load (x.Save I deviceGeneric)).GetDeviceInfo
          = some { DevID := a.DevID, SocketPath := a.SocketPath, «Type» := a.«Type» }) := by
  obtain ⟨g, attrs⟩ := x
  cases attrs with
  | none =>
    simp [VhostUserBlkDevice.Save, VhostUserBlkDevice.Load, GenericDevice.Save,
      NewVhostUserBlkDevice, VhostUserBlkDevice.GetDeviceInfo]
  | some a =>
    simp [VhostUserBlkDevice.Save, VhostUserBlkDevice.Load, GenericDevice.Save,
      NewVhostUserBlkDevice, VhostUserBlkDevice.GetDeviceInfo]

/-- C12, counterexample: the record `Save` returns for a device constructed by
`NewVhostUserBlkDevice` and never attached carries the vhost-user-blk tag but
its `VhostUserDev` is nil. -/
theorem Save_unattached_no_variant :
    ((NewVhostUserBlkDevice sampleInfo).Save sampleImports "generic").«Type»
        = (NewVhostUserBlkDevice sampleInfo).DeviceType sampleImports ∧
      ((NewVhostUserBlkDevice sampleInfo).Save sampleImports "generic").VhostUserDev
        = none := by
  decide

/-- C12, amended: the record `Save` returns has its `Type` discriminator equal
to `DeviceType()` of the device, and its `VhostUserDev` is populated exactly
when the `VhostUserDeviceAttrs` of the device is not nil, then with the same
`DevID`, `SocketPath` and `Type`; for a device constructed by
`NewVhostUserBlkDevice` and not attached since, it is nil. -/
theorem Save_discriminator_and_variant (I : Imports) (deviceGeneric : DeviceType)
    (device : VhostUserBlkDevice) :
    (device.Save I deviceGeneric).«Type» = device.DeviceType I ∧
      (device.Save I deviceGeneric).VhostUserDev
        = device.VhostUserDeviceAttrs.map
            (fun a => { DevID := a.DevID, SocketPath := a.SocketPath, «Type» := a.«Type» }) ∧
      ((device.Save I deviceGeneric).VhostUserDev ≠ none
        ↔ device.VhostUserDeviceAttrs ≠ none) ∧
      (∀ devInfo,
        ((NewVhostUserBlkDevice devInfo).Save I deviceGeneric).VhostUserDev = none) := by
  obtain ⟨g, attrs⟩ := device
  cases attrs with
  | none =>
    simp [VhostUserBlkDevice.Save, GenericDevice.Save, NewVhostUserBlkDevice]
  | some a =>
    simp [VhostUserBlkDevice.Save, GenericDevice.Save, NewVhostUserBlkDevice]

/-- C15, counterexample: a record with the generic discriminator and no
variant substructure, loaded into a vhost-user block device that holds a
descriptor. `Load` has no error result; the call goes through, the generic
state of the device is now that of the record and the descriptor is the one
the device held. -/
theorem Load_accepts_bare_record :
    sampleBareState.VhostUserDev = none ∧
      sampleBareState.«Type» ≠ sampleAttached.DeviceType sampleImports ∧
      (sampleAttached.Load sampleBareState).GenericDevice.ID = "d9" ∧
      (sampleAttached.Load sampleBareState).GenericDevice.DeviceInfo.HostPath = "/dev/vdz" ∧
      (sampleAttached.Load sampleBareState).VhostUserDeviceAttrs = some sampleAttrs := by
  decide

/-- C15, amended: `Load` reports no error and does not compare the
discriminator with the variant. A record whose `VhostUserDev` is nil is
accepted whatever its `Type`: the generic state of the device is loaded from
the record and `VhostUserDeviceAttrs` is left as it was. -/
theorem Load_absent_variant_accepted (x : VhostUserBlkDevice)
    (ds : persistapi.DeviceState) (ty : String) (h : ds.VhostUserDev = none) :
    x.Load { ds with «Type» := ty }
      = { GenericDevice := GenericDevice.zero.Load { ds with «Type» := ty }
          VhostUserDeviceAttrs := x.VhostUserDeviceAttrs } := by
  simp [VhostUserBlkDevice.Load, h]

/-- Witness of C15 amended, at the input of the counterexample. -/
theorem Load_absent_variant_accepted_witness :
    sampleBareState.VhostUserDev = none ∧
      sampleAttached.Load { sampleBareState with «Type» := "no such type" }
        = { GenericDevice :=
              GenericDevice.zero.Load { sampleBareState with «Type» := "no such type" }
            VhostUserDeviceAttrs := sampleAttached.VhostUserDeviceAttrs } :=
  ⟨rfl, Load_absent_variant_accepted sampleAttached sampleBareState "no such type" rfl⟩

/-- C20: `Load` replaces the generic state of the device by the one loaded
from the record into a new `GenericDevice`, whatever the device held. When
`VhostUserDev` of the record is nil, `VhostUserDeviceAttrs` is left as it was;
when it is present, `VhostUserDeviceAttrs` is the copy of its `DevID`,
`SocketPath` and `Type`, so two devices loaded from that record end up
equal. -/
theorem Load_frame (x y : VhostUserBlkDevice) (ds : persistapi.DeviceState) :
    (x.Load ds).GenericDevice = GenericDevice.zero.Load ds ∧
      (x.Load ds).GenericDevice = (y.Load ds).GenericDevice ∧
      (ds.VhostUserDev = none →
        (x.Load ds).VhostUserDeviceAttrs = x.VhostUserDeviceAttrs) ∧
      (∀ dev, ds.VhostUserDev = some dev →
        (x.Load ds).VhostUserDeviceAttrs
            = some { DevID := dev.DevID, SocketPath := dev.SocketPath,
                     «Type» := dev.«Type» } ∧
          x.Load ds = y.Load ds) := by
  rcases h : ds.VhostUserDev with _ | dev <;> simp [VhostUserBlkDevice.Load, h]

/-! ## Interface pairs: save then load, load then save -/

/-- C13: for every live pair `p`, `loadNetIfPair(saveNetIfPair(p))` is not nil
and is `p` with the file-descriptor handles of its tap interface dropped: the
tap interface `ID`, `Name` and `TAPIface`, the `VirtIface` (addresses in the
same order) and the `NetInterworkingModel` are those of `p`. -/
theorem loadNetIfPair_saveNetIfPair (p : NetworkInterfacePair) :
    loadNetIfPair (saveNetIfPair (some p))
        = some { p with TapInterface := { p.TapInterface with VMFds := [], VhostFds := [] } } ∧
      loadNetIfPair (saveNetIfPair (some p)) ≠ none ∧
      ∀ q, loadNetIfPair (saveNetIfPair (some p)) = some q →
        q.TapInterface.ID = p.TapInterface.ID ∧
          q.TapInterface.Name = p.TapInterface.Name ∧
          q.TapInterface.TAPIface = p.TapInterface.TAPIface ∧
          q.VirtIface = p.VirtIface ∧
          q.NetInterworkingModel = p.NetInterworkingModel ∧
          q.TapInterface.VMFds = [] ∧ q.TapInterface.VhostFds = [] := by
  have h : loadNetIfPair (saveNetIfPair (some p))
      = some { p with
          TapInterface := { p.TapInterface with VMFds := [], VhostFds := [] } } := by
    simp [saveNetIfPair, loadNetIfPair, saveTapIf, loadTapIf]
  refine ⟨h, by simp [h], ?_⟩
  intro q hq
  rw [h] at hq
  cases hq
  simp

/-- C18: for every persisted pair `q`, `saveNetIfPair(loadNetIfPair(q))` is
`q`, whatever integer its `NetInterworkingModel` is; for every persisted tap
interface `t`, `saveTapIf(loadTapIf(t))` is `t`; and each of the four helpers
returns nil exactly when its argument is nil. -/
theorem saveNetIfPair_loadNetIfPair (q : persistapi.NetworkInterfacePair)
    (t : persistapi.TapInterface) :
    saveNetIfPair (loadNetIfPair (some q)) = some q ∧
      saveTapIf (loadTapIf (some t)) = some t ∧
      (∀ n : Int,
        saveNetIfPair (loadNetIfPair (some { q with NetInterworkingModel := n }))
          = some { q with NetInterworkingModel := n }) ∧
      (∀ a, saveTapIf a = none ↔ a = none) ∧
      (∀ a, loadTapIf a = none ↔ a = none) ∧
      (∀ a, saveNetIfPair a = none ↔ a = none) ∧
      (∀ a, loadNetIfPair a = none ↔ a = none) := by
  refine ⟨?_, ?_, ?_, ?_, ?_, ?_, ?_⟩
  · simp [saveNetIfPair, loadNetIfPair, saveTapIf, loadTapIf]
  · simp [saveTapIf, loadTapIf]
  · intro n
    simp [saveNetIfPair, loadNetIfPair, saveTapIf, loadTapIf]
  · intro a
    cases a <;> simp [saveTapIf]
  · intro a
    cases a <;> simp [loadTapIf]
  · intro a
    cases a <;> simp [saveNetIfPair]
  · intro a
    cases a <;> simp [loadNetIfPair]

/-! ## The descriptor a successful first attach leaves -/

/-- C14: on a device with attach count 0, when `Attach` returns no error,
`GetDeviceInfo` afterwards returns a descriptor whose `SocketPath` is the
`HostPath` of the device info and whose `DevID` is
`MakeNameID("blk", DeviceInfo.ID, maxDevIDSize)`; with a `MakeNameID` that
keeps to the maximum size it is given, the `DevID` is no longer than
`maxDevIDSize`. -/
theorem Attach_descriptor {σ : Type} (I : Imports) (device : VhostUserBlkDevice)
    (devReceiver : DeviceReceiver σ) (receiver : σ)
    (h0 : device.GenericDevice.AttachCount = 0)
    (hok : (device.Attach I devReceiver receiver).err = none) :
    ∃ a, (device.Attach I devReceiver receiver).device.GetDeviceInfo = some a ∧
      a.SocketPath = device.GenericDevice.DeviceInfo.HostPath ∧
      a.DevID = I.MakeNameID "blk" device.GenericDevice.DeviceInfo.ID I.maxDevIDSize ∧
      (I.bounded → a.DevID.length ≤ I.maxDevIDSize) := by
  refine ⟨Attach.vAttrs I device, ?_, rfl, rfl, fun hb => hb _ _ _⟩
  rcases hget : (devReceiver.GetAndSetSandboxBlockIndex receiver).1.2 with _ | e
  · rcases hhot : (devReceiver.HotplugAddDevice (Attach.handed I device) I.VhostUserBlk
        (devReceiver.GetAndSetSandboxBlockIndex receiver).2).1 with _ | e
    · rw [Attach_ok I device devReceiver receiver h0 hget hhot]
      rfl
    · rw [Attach_hotplug_error I device devReceiver receiver e h0 hget hhot] at hok
      cases hok
  · rw [Attach_index_error I device devReceiver receiver e h0 hget] at hok
    cases hok

/-- The stand-in `MakeNameID` keeps to the maximum size. -/
theorem sampleImports_bounded : sampleImports.bounded := by
  intro namedType id maxLen
  show (List.take maxLen (namedType ++ "-" ++ id).toList).length ≤ maxLen
  exact List.length_take_le _ _

/-- Witness of C14: a fresh device whose id is longer than the maximum size,
on a receiver whose calls succeed. -/
theorem Attach_descriptor_witness :
    (NewVhostUserBlkDevice
        { sampleInfo with ID := "0123456789abcdef0123456789abcdef0123456789" }
      ).GenericDevice.AttachCount = 0 ∧
      ((NewVhostUserBlkDevice
          { sampleInfo with ID := "0123456789abcdef0123456789abcdef0123456789" }).Attach
        sampleImports (counterReceiver none none) 5).err = none ∧
      ∃ a, ((NewVhostUserBlkDevice
          { sampleInfo with ID := "0123456789abcdef0123456789abcdef0123456789" }).Attach
            sampleImports (counterReceiver none none) 5).device.GetDeviceInfo = some a ∧
        a.SocketPath = "/tmp/vhost.sock" ∧
        a.DevID.length ≤ 31 := by
  refine ⟨rfl, rfl, ?_⟩
  obtain ⟨a, ha, hs, _, hb⟩ := Attach_descriptor sampleImports
    (NewVhostUserBlkDevice
      { sampleInfo with ID := "0123456789abcdef0123456789abcdef0123456789" })
    (counterReceiver none none) 5 rfl rfl
  exact ⟨a, ha, hs, hb sampleImports_bounded⟩

/-! ## Detach only moves the counter -/

/-- C16: `Detach` makes no call on the receiver and leaves the receiver as it
was; on the device it changes nothing but the attach count; the error it
returns is that of the counter decrement. So at a count of at least 1 it
returns no error and lowers the count by exactly one. -/
theorem Detach_frame {σ : Type} (device : VhostUserBlkDevice)
    (devReceiver : DeviceReceiver σ) (receiver : σ) :
    (device.Detach devReceiver receiver).trace.filter Event.isReceiverCall = [] ∧
      (device.Detach devReceiver receiver).trace = [Event.bumpAttachCount false] ∧
      (device.Detach devReceiver receiver).receiver = receiver ∧
      (device.Detach devReceiver receiver).device
        = { device with
            GenericDevice :=
              { device.GenericDevice with
                AttachCount :=
                  (device.Detach devReceiver receiver).device.GenericDevice.AttachCount } } ∧
      (device.Detach devReceiver receiver).err
        = (device.GenericDevice.bumpAttachCount false).2.2 ∧
      (1 ≤ device.GenericDevice.AttachCount →
        (device.Detach devReceiver receiver).err = none ∧
          (device.Detach devReceiver receiver).device.GenericDevice.AttachCount + 1
            = device.GenericDevice.AttachCount) := by
  refine ⟨by simp [VhostUserBlkDevice.Detach, Event.isReceiverCall], rfl, rfl, ?_, rfl, ?_⟩
  · by_cases h0 : device.GenericDevice.AttachCount = 0
    · simp [VhostUserBlkDevice.Detach, GenericDevice.bumpAttachCount, h0]
      exact (GenericDevice_count_eta device.GenericDevice 0 h0).symm
    · by_cases h1 : 1 ≤ device.GenericDevice.AttachCount - 1 <;>
        simp [VhostUserBlkDevice.Detach, GenericDevice.bumpAttachCount, h0, h1]
  · intro h
    have hb := (bumpAttachCount_false device.GenericDevice).2 h
    refine ⟨hb.1, ?_⟩
    show (device.GenericDevice.bumpAttachCount false).1.AttachCount + 1 = _
    rw [hb.2]
    show device.GenericDevice.AttachCount - 1 + 1 = device.GenericDevice.AttachCount
    omega

/-! ## Endpoint types: from strings back to strings -/

/-- C17: when `Set(s)` returns no error, `String()` of the resulting endpoint
type is `s`; and for an endpoint type value that is none of the seven
constants, `String()` returns the empty string, on which `Set` returns an
error. -/
theorem String_Set_accepted (s : String) (r t : EndpointType) :
    ((EndpointType.Set r s).1 = none →
        EndpointType.String (EndpointType.Set r s).2 = s) ∧
      (t ∉ endpointTypes →
        EndpointType.String t = "" ∧
          (EndpointType.Set r (EndpointType.String t)).1 ≠ none) := by
  constructor
  · unfold EndpointType.Set
    split_ifs with h1 h2 h3 h4 h5 h6 h7
    · intro _; subst h1; rfl
    · intro _; subst h2; rfl
    · intro _; subst h3; rfl
    · intro _; subst h4; rfl
    · intro _; subst h5; rfl
    · intro _; subst h6; rfl
    · intro _; subst h7; rfl
    · intro h; simp at h
  · intro ht
    simp only [endpointTypes, List.mem_cons, List.mem_singleton, List.not_mem_nil,
      or_false, not_or] at ht
    obtain ⟨h1, h2, h3, h4, h5, h6, h7⟩ := ht
    have hs : EndpointType.String t = "" := by
      simp [EndpointType.String, h1, h2, h3, h4, h5, h6, h7]
    rw [hs]
    exact ⟨rfl, by simp [EndpointType.Set]⟩

/-! ## The compensation after a failed block index allocation -/

/-- C19: on a device with attach count 0, when `GetAndSetSandboxBlockIndex`
returns an error, `Attach` still calls `DecrementSandboxBlockIndex`, exactly
once, after the failed allocation and before the counter decrement, and never
calls `HotplugAddDevice`. So for every reading `index` of the receiver state
that a failing `GetAndSetSandboxBlockIndex` leaves alone and that
`DecrementSandboxBlockIndex` lowers by one, the index after the failed
`Attach` is one lower than before the call. -/
theorem Attach_index_failure_decrements {σ : Type} (I : Imports)
    (device : VhostUserBlkDevice) (devReceiver : DeviceReceiver σ) (receiver : σ)
    (h0 : device.GenericDevice.AttachCount = 0)
    (hget : (devReceiver.GetAndSetSandboxBlockIndex receiver).1.2 ≠ none) :
    (device.Attach I devReceiver receiver).trace
        = [Event.bumpAttachCount true, Event.GetAndSetSandboxBlockIndex,
           Event.DecrementSandboxBlockIndex, Event.bumpAttachCount false] ∧
      (device.Attach I devReceiver receiver).trace.count Event.DecrementSandboxBlockIndex
        = 1 ∧
      (device.Attach I devReceiver receiver).receiver
        = devReceiver.DecrementSandboxBlockIndex
            (devReceiver.GetAndSetSandboxBlockIndex receiver).2 ∧
      ∀ index : σ → Int,
        (∀ s, (devReceiver.GetAndSetSandboxBlockIndex s).1.2 ≠ none →
          index (devReceiver.GetAndSetSandboxBlockIndex s).2 = index s) →
        (∀ s, index (devReceiver.DecrementSandboxBlockIndex s) = index s - 1) →
        index (device.Attach I devReceiver receiver).receiver = index receiver - 1 := by
  obtain ⟨e, he⟩ := Option.ne_none_iff_exists'.mp hget
  rw [Attach_index_error I device devReceiver receiver e h0 he]
  refine ⟨rfl, by simp [List.count_cons], rfl, ?_⟩
  intro index hkeep hdec
  simp only [hdec, hkeep receiver hget]

/-- Witness of C19: a fresh device on a sandbox-like receiver at block index 5
that has no index to give; the block index is 4 afterwards. -/
theorem Attach_index_failure_decrements_witness :
    (NewVhostUserBlkDevice sampleInfo).GenericDevice.AttachCount = 0 ∧
      ((counterReceiver (some ⟨"no index"⟩) none).GetAndSetSandboxBlockIndex 5).1.2 ≠ none ∧
      ((NewVhostUserBlkDevice sampleInfo).Attach sampleImports
        (counterReceiver (some ⟨"no index"⟩) none) 5).receiver = 5 - 1 :=
  ⟨rfl, by decide,
   (Attach_index_failure_decrements sampleImports (NewVhostUserBlkDevice sampleInfo)
      (counterReceiver (some ⟨"no index"⟩) none) 5 rfl (by decide)).2.2.2
      id (fun _ _ => rfl) (fun _ => rfl)⟩

end Kata
